import Mathlib

/-!
Verification development for the aztec-packages proof-composition layer.

Part 1 models the block-root merge logic of the rollup (spec sections 3, 4
and 7).  The Noir circuit bodies (`block_root_rollup_circuit`, `SpongeBlob`,
`accumulate_sha256`, the empty block-root variant) are not part of the
sampled excerpt — only their tests and module declarations are — so the
definitions in this part are modelled from the spec, faithful to its words.
Field elements (scalars, digests, archive roots) are modelled as `Nat`; the
external hash primitives (the SHA-256 style two-to-one combinator, the
Poseidon2 style sponge step / squeeze / 3-element hash) are parameters of a
`HashModel`, since the claims only concern how the merge wires them
together, not their internals.

Part 2 embeds the process-orchestration wrapper
`yarn-project/bb-prover/src/bb/execute.ts`, which is present in the excerpt:
`executeBB`, `fsCache`, `generateKeyForNoirCircuit`, `generateProof`,
`computeVerificationKey`, `generateTubeProof`, `generateAvmProof` and
`verifyProofInternal`.  File-system and process effects are made explicit as
environment records describing what the outside world did (directory and
binary present, a write threw, the spawned process's outcome).
-/

namespace Aztec

/-- Modelled from the spec: the external hash primitives used by the merge
(spec 4.1, 4.2, 4.4).  `accumulate` is the fixed order-sensitive SHA-256
style two-to-one combinator; `absorbStep` folds one field element into the
sponge accumulator; `squeezeFn` finalizes an accumulator into a digest;
`hash3` is the Poseidon2 style hash over a 3-element domain;
`outHashSentinel` is the fixed `out_hash` sentinel of the empty variant
(spec 4.6).  The claims are about how the merge wires these together, so
they are parameters, not concrete compression functions. -/
structure HashModel where
  accumulate : Nat → Nat → Nat
  absorbStep : Nat → Nat → Nat
  squeezeFn : Nat → Nat
  hash3 : Nat → Nat → Nat → Nat
  outHashSentinel : Nat

/-- Modelled from the spec (section 3, SpongeState): a sponge transcript
state `{ accumulator, fields_absorbed, expected_fields }`. -/
structure SpongeBlob where
  accumulator : Nat
  fields_absorbed : Nat
  expected_fields : Nat
deriving DecidableEq

/-- Modelled from the spec (section 3): the chain-state snapshot carried in a
unit's `constants.global_variables`; block number and timestamp are the
components the continuity rules constrain (spec 4.3). -/
structure GlobalVariables where
  block_number : Nat
  timestamp : Nat
deriving DecidableEq

/-- Modelled from the spec (section 3): `constants` of a rollup unit. -/
structure RollupConstants where
  global_variables : GlobalVariables
  last_archive : Nat
deriving DecidableEq

/-- Modelled from the spec (sections 3 and 4.4): a `(z, y)` evaluation claim
recorded in `blob_public_inputs`. -/
structure BlobPublicInput where
  z : Nat
  y : Nat
deriving DecidableEq

/-- Modelled from the spec (section 3, RollupUnit): the validated public
inputs of a leaf batch or of a prior merge. -/
structure RollupUnit where
  constants : RollupConstants
  out_hash : Nat
  start_sponge_blob : SpongeBlob
  end_sponge_blob : SpongeBlob
  blob_public_inputs : List BlobPublicInput
deriving DecidableEq

/-- Modelled from the spec (section 3): an external elliptic-curve blob
commitment `C = (C.x, C.y)`, modelled by its two coordinates. -/
structure BlobCommitment where
  x : Nat
  y : Nat
deriving DecidableEq

/-- Modelled from the spec (section 3, BlockRootMergeInputs): exactly two
rollup units plus the external blob commitments.  `right_fields` is the
right child's declared blob field contribution, which the chaining rule
(spec 4.2) absorbs on top of the left child's transcript state. -/
structure BlockRootMergeInputs where
  left : RollupUnit
  right : RollupUnit
  right_fields : List Nat
  blob_commitments : List BlobCommitment
deriving DecidableEq

/-- Modelled from the spec (section 3, AggregatePublicInputs): the merge's
output shape. -/
structure AggregatePublicInputs where
  previous_archive : Nat
  start_global_variables : GlobalVariables
  end_global_variables : GlobalVariables
  out_hash : Nat
  end_sponge_blob : SpongeBlob
  blob_public_inputs : List BlobPublicInput
deriving DecidableEq

/-- Modelled from the spec (section 7): the distinct fatal failure modes of
the merge.  `firstSpongeNotEmpty` is the explicitly named failure
"block's first blob sponge was not empty". -/
inductive MergeError where
  | firstSpongeNotEmpty
  | continuityViolation
  | spongeChainingViolation
  | squeezeIncomplete
deriving DecidableEq

/-- Modelled from the spec (section 4.2): folding one field element into the
sponge transcript. -/
def absorbOne (hm : HashModel) (st : SpongeBlob) (f : Nat) : SpongeBlob :=
  { st with
    accumulator := hm.absorbStep st.accumulator f
    fields_absorbed := st.fields_absorbed + 1 }

/-- Modelled from the spec (section 4.2): `absorb(state, fields,
expected_fields)` appends the given field elements and records the total
expected length; over-absorption is a fatal condition (spec section 7), so
it yields `none`. -/
def absorb (hm : HashModel) (st : SpongeBlob) (fields : List Nat)
    (expected : Nat) : Option SpongeBlob :=
  if st.fields_absorbed + fields.length ≤ expected then
    some (fields.foldl (absorbOne hm)
      { st with expected_fields := expected })
  else
    none

/-- Modelled from the spec (section 4.2): `squeeze(state)` finalizes the
transcript into a digest, valid only once the number of absorbed fields
reaches `expected_fields`; otherwise the unit is malformed and squeezing
fails. -/
def squeeze (hm : HashModel) (st : SpongeBlob) : Option Nat :=
  if st.fields_absorbed = st.expected_fields then
    some (hm.squeezeFn st.accumulator)
  else
    none

/-- Modelled from the spec (sections 3 and 4.2): a fresh/empty sponge has a
zeroed accumulator and `fields_absorbed = 0`. -/
def emptySponge (expected : Nat) : SpongeBlob :=
  { accumulator := 0, fields_absorbed := 0, expected_fields := expected }

/-- Sponge states reachable from a fresh sponge through successful
absorptions. -/
inductive ReachableSponge (hm : HashModel) : SpongeBlob → Prop where
  | empty (n : Nat) : ReachableSponge hm (emptySponge n)
  | step (st st' : SpongeBlob) (fields : List Nat) (expected : Nat)
      (h1 : ReachableSponge hm st)
      (h2 : absorb hm st fields expected = some st') :
      ReachableSponge hm st'

/-- Modelled from the spec (section 4.1): the reference instantiation of the
order-sensitive two-to-one combinator, `accumulate_sha256` over a pair of
digests. -/
def accumulate_sha256 (hm : HashModel) (p : Nat × Nat) : Nat :=
  hm.accumulate p.1 p.2

/-- Modelled from the spec (sections 4.2, 4.3, 4.5): the block-root merge
circuit.  It checks, in order: the boundary rule (the leftmost unit must
start from an empty transcript, spec 4.2), continuity of the global
variables across the boundary (spec 4.3), the sponge chaining rule
(continuing absorption from the left child's end state by the right child's
contribution must reproduce the right child's end state, spec 4.2), and
completeness of the final transcript before squeezing it for the
commitment-binding challenge (spec 4.4).  On success the output fields are
exactly those of spec 4.5. -/
def merge (hm : HashModel) (inp : BlockRootMergeInputs) :
    Except MergeError AggregatePublicInputs :=
  if inp.left.start_sponge_blob.fields_absorbed ≠ 0 then
    .error .firstSpongeNotEmpty
  else if ¬ (inp.left.constants.global_variables.block_number ≤
        inp.right.constants.global_variables.block_number ∧
      inp.left.constants.global_variables.timestamp ≤
        inp.right.constants.global_variables.timestamp) then
    .error .continuityViolation
  else
    match absorb hm inp.left.end_sponge_blob inp.right_fields
        inp.left.end_sponge_blob.expected_fields with
    | none => .error .spongeChainingViolation
    | some chained =>
      if chained ≠ inp.right.end_sponge_blob then
        .error .spongeChainingViolation
      else
        match squeeze hm inp.right.end_sponge_blob with
        | none => .error .squeezeIncomplete
        | some h =>
          .ok
            { previous_archive := inp.left.constants.last_archive
              start_global_variables := inp.left.constants.global_variables
              end_global_variables := inp.right.constants.global_variables
              out_hash := hm.accumulate inp.left.out_hash inp.right.out_hash
              end_sponge_blob := inp.right.end_sponge_blob
              blob_public_inputs := inp.blob_commitments.map
                (fun c => { z := hm.hash3 h c.x c.y, y := 0 }) }

/-- Modelled from the spec (section 4.6): the empty/padding variant.  It is
a constant: a canonical aggregate with the fixed `out_hash` sentinel, an
empty/zeroed sponge and no blob public inputs, conforming to the same
output shape as a real merge. -/
def mergeEmpty (hm : HashModel) : AggregatePublicInputs :=
  { previous_archive := 0
    start_global_variables := { block_number := 0, timestamp := 0 }
    end_global_variables := { block_number := 0, timestamp := 0 }
    out_hash := hm.outHashSentinel
    end_sponge_blob := emptySponge 0
    blob_public_inputs := [] }

/-- A concrete hash model used to evaluate the merge on concrete inputs.
The functions are arbitrary computable stand-ins for the external hash
primitives. -/
def natHashModel : HashModel :=
  { accumulate := fun a b => 1000003 * a + b + 7
    absorbStep := fun acc f => 31 * acc + f + 1
    squeezeFn := fun acc => acc + 13
    hash3 := fun a b c => (a * 1009 + b) * 1009 + c + 3
    outHashSentinel := 17 }

/-- A concrete left child: empty start sponge, one field absorbed, out_hash
sentinel 1. -/
def sampleLeft : RollupUnit :=
  { constants :=
      { global_variables := { block_number := 1, timestamp := 100 }
        last_archive := 42 }
    out_hash := 1
    start_sponge_blob := emptySponge 2
    end_sponge_blob :=
      { accumulator := 2, fields_absorbed := 1, expected_fields := 2 }
    blob_public_inputs := [] }

/-- A concrete right child: its end sponge is the left child's end sponge
after absorbing the field `2`; out_hash sentinel 2. -/
def sampleRight : RollupUnit :=
  { constants :=
      { global_variables := { block_number := 2, timestamp := 200 }
        last_archive := 43 }
    out_hash := 2
    start_sponge_blob := emptySponge 2
    end_sponge_blob :=
      { accumulator := 65, fields_absorbed := 2, expected_fields := 2 }
    blob_public_inputs := [] }

/-- A concrete merge input on which every check passes. -/
def sampleInputs : BlockRootMergeInputs :=
  { left := sampleLeft
    right := sampleRight
    right_fields := [2]
    blob_commitments := [{ x := 5, y := 6 }] }

/-- The aggregate produced by `merge natHashModel sampleInputs`. -/
def sampleOut : AggregatePublicInputs :=
  { previous_archive := 42
    start_global_variables := { block_number := 1, timestamp := 100 }
    end_global_variables := { block_number := 2, timestamp := 200 }
    out_hash := 1000012
    end_sponge_blob :=
      { accumulator := 65, fields_absorbed := 2, expected_fields := 2 }
    blob_public_inputs := [{ z := 79415372, y := 0 }] }

example : merge natHashModel sampleInputs = .ok sampleOut := by rfl

/-- A merge input whose right child's end sponge does not match continued
absorption from the left child's end sponge (chaining violation). -/
def sampleBadChain : BlockRootMergeInputs :=
  { sampleInputs with
    right :=
      { sampleRight with
        end_sponge_blob :=
          { accumulator := 0, fields_absorbed := 2, expected_fields := 2 } } }

/-- A merge input whose leftmost unit starts from a non-empty sponge. -/
def sampleNonEmptyFirst : BlockRootMergeInputs :=
  { sampleInputs with
    left :=
      { sampleLeft with
        start_sponge_blob :=
          { accumulator := 0, fields_absorbed := 1, expected_fields := 2 } } }

/-- A merge input where the same non-empty start sponge sits on the
non-leftmost (right) unit instead. -/
def sampleNonEmptyRightStart : BlockRootMergeInputs :=
  { sampleInputs with
    right :=
      { sampleRight with
        start_sponge_blob :=
          { accumulator := 0, fields_absorbed := 1, expected_fields := 2 } } }

/-- A merge input whose final (right child's end) sponge is not fully
absorbed, so it cannot be squeezed. -/
def sampleIncomplete : BlockRootMergeInputs :=
  { sampleInputs with
    right :=
      { sampleRight with
        end_sponge_blob :=
          { accumulator := 65, fields_absorbed := 1, expected_fields := 2 } } }

theorem foldl_absorbOne_counts (hm : HashModel) (fields : List Nat)
    (st : SpongeBlob) :
    (fields.foldl (absorbOne hm) st).fields_absorbed =
      st.fields_absorbed + fields.length ∧
    (fields.foldl (absorbOne hm) st).expected_fields = st.expected_fields := by
  induction fields generalizing st with
  | nil => simp
  | cons f fs ih =>
    have h := ih (absorbOne hm st f)
    have ha : (absorbOne hm st f).fields_absorbed = st.fields_absorbed + 1 :=
      rfl
    have he : (absorbOne hm st f).expected_fields = st.expected_fields := rfl
    constructor
    · rw [List.foldl_cons, h.1, ha, List.length_cons]
      omega
    · rw [List.foldl_cons, h.2, he]

theorem absorb_some_bounds {hm : HashModel} {st : SpongeBlob}
    {fields : List Nat} {expected : Nat} {st' : SpongeBlob}
    (h : absorb hm st fields expected = some st') :
    st'.fields_absorbed ≤ st'.expected_fields ∧
    st'.expected_fields = expected ∧
    st'.fields_absorbed = st.fields_absorbed + fields.length := by
  unfold absorb at h
  split at h
  next hle =>
    have h' := Option.some.inj h
    subst h'
    have hf := foldl_absorbOne_counts hm fields
      { st with expected_fields := expected }
    refine ⟨?_, ?_, ?_⟩
    · rw [hf.1, hf.2]
      exact hle
    · exact hf.2
    · exact hf.1
  next hle => exact Option.noConfusion h

theorem merge_ok_inv {hm : HashModel} {inp : BlockRootMergeInputs}
    {out : AggregatePublicInputs} (h : merge hm inp = .ok out) :
    inp.left.start_sponge_blob.fields_absorbed = 0 ∧
    (inp.left.constants.global_variables.block_number ≤
        inp.right.constants.global_variables.block_number ∧
      inp.left.constants.global_variables.timestamp ≤
        inp.right.constants.global_variables.timestamp) ∧
    absorb hm inp.left.end_sponge_blob inp.right_fields
        inp.left.end_sponge_blob.expected_fields =
      some inp.right.end_sponge_blob ∧
    ∃ hd, squeeze hm inp.right.end_sponge_blob = some hd ∧
      out =
        { previous_archive := inp.left.constants.last_archive
          start_global_variables := inp.left.constants.global_variables
          end_global_variables := inp.right.constants.global_variables
          out_hash := hm.accumulate inp.left.out_hash inp.right.out_hash
          end_sponge_blob := inp.right.end_sponge_blob
          blob_public_inputs := inp.blob_commitments.map
            (fun c => { z := hm.hash3 hd c.x c.y, y := 0 }) } := by
  unfold merge at h
  split at h
  next h0 => exact Except.noConfusion h
  next h0 =>
    split at h
    next h1 => exact Except.noConfusion h
    next h1 =>
      split at h
      next habs => exact Except.noConfusion h
      next chained habs =>
        split at h
        next hne => exact Except.noConfusion h
        next hne =>
          split at h
          next hsq => exact Except.noConfusion h
          next hd hsq =>
            have hch : chained = inp.right.end_sponge_blob := not_not.mp hne
            subst hch
            refine ⟨not_not.mp h0, not_not.mp h1, habs, hd, hsq, ?_⟩
            exact (Except.ok.inj h).symm

/-- C1: the aggregate produced by the block-root merge has `out_hash` equal
to `accumulate(L.out_hash, R.out_hash)`, the fixed order-sensitive SHA-256
style two-to-one combinator; in particular, for leaf `out_hash` sentinels 1
and 2 the merged `out_hash` equals `accumulate_sha256 (1, 2)`. -/
theorem merge_out_hash_spec :
    (∀ (hm : HashModel) (inp : BlockRootMergeInputs)
        (out : AggregatePublicInputs),
        merge hm inp = .ok out →
        out.out_hash =
          accumulate_sha256 hm (inp.left.out_hash, inp.right.out_hash)) ∧
    (merge natHashModel sampleInputs = .ok sampleOut ∧
      sampleInputs.left.out_hash = 1 ∧ sampleInputs.right.out_hash = 2 ∧
      sampleOut.out_hash = accumulate_sha256 natHashModel (1, 2)) := by
  constructor
  · intro hm inp out h
    obtain ⟨-, -, -, hd, -, rfl⟩ := merge_ok_inv h
    rfl
  · exact ⟨by rfl, rfl, rfl, rfl⟩

theorem merge_out_hash_spec_witness :
    sampleOut.out_hash =
      accumulate_sha256 natHashModel
        (sampleInputs.left.out_hash, sampleInputs.right.out_hash) :=
  merge_out_hash_spec.1 natHashModel sampleInputs sampleOut (by rfl)

/-- C2: every successful merge has `previous_archive` equal to the left
child's `constants.last_archive`, `start_global_variables` equal to the left
child's `constants.global_variables` (the left child's, not the right
child's), and `end_global_variables` equal to the right child's
`constants.global_variables`. -/
theorem merge_end_constants_spec :
    ∀ (hm : HashModel) (inp : BlockRootMergeInputs)
      (out : AggregatePublicInputs),
      merge hm inp = .ok out →
      out.previous_archive = inp.left.constants.last_archive ∧
      out.start_global_variables = inp.left.constants.global_variables ∧
      out.end_global_variables = inp.right.constants.global_variables ∧
      (inp.left.constants.global_variables ≠
          inp.right.constants.global_variables →
        out.start_global_variables ≠ inp.right.constants.global_variables) := by
  intro hm inp out h
  obtain ⟨-, -, -, hd, -, rfl⟩ := merge_ok_inv h
  exact ⟨rfl, rfl, rfl, fun hne => hne⟩

theorem merge_end_constants_spec_witness :
    sampleOut.previous_archive = sampleInputs.left.constants.last_archive ∧
    sampleOut.start_global_variables =
      sampleInputs.left.constants.global_variables ∧
    sampleOut.end_global_variables =
      sampleInputs.right.constants.global_variables ∧
    (sampleInputs.left.constants.global_variables ≠
        sampleInputs.right.constants.global_variables →
      sampleOut.start_global_variables ≠
        sampleInputs.right.constants.global_variables) :=
  merge_end_constants_spec natHashModel sampleInputs sampleOut (by rfl)

/-- C3: the merge does not require `left.end_sponge_blob ==
right.start_sponge_blob`; it succeeds only if continuing absorption from
the left child's end transcript state by exactly the right child's field
contribution reproduces `right.end_sponge_blob`, and any violation is fatal
(the merge produces no aggregate). -/
theorem merge_sponge_chaining_spec :
    (∀ (hm : HashModel) (inp : BlockRootMergeInputs)
        (out : AggregatePublicInputs),
        merge hm inp = .ok out →
        absorb hm inp.left.end_sponge_blob inp.right_fields
            inp.left.end_sponge_blob.expected_fields =
          some inp.right.end_sponge_blob) ∧
    (∀ (hm : HashModel) (inp : BlockRootMergeInputs),
        absorb hm inp.left.end_sponge_blob inp.right_fields
            inp.left.end_sponge_blob.expected_fields ≠
          some inp.right.end_sponge_blob →
        ∀ out, merge hm inp ≠ .ok out) ∧
    (merge natHashModel sampleInputs = .ok sampleOut ∧
      sampleInputs.left.end_sponge_blob ≠
        sampleInputs.right.start_sponge_blob) := by
  refine ⟨?_, ?_, by rfl, by decide⟩
  · intro hm inp out h
    exact (merge_ok_inv h).2.2.1
  · intro hm inp hne out h
    exact hne (merge_ok_inv h).2.2.1

theorem merge_sponge_chaining_spec_witness :
    merge natHashModel sampleBadChain ≠ .ok sampleOut :=
  merge_sponge_chaining_spec.2.1 natHashModel sampleBadChain (by decide)
    sampleOut

/-- C4: for every successful merge with blob commitment `C`, the recorded
challenge for each blob chunk is the fixed 3-element algebraic hash of the
finalized transcript digest and the commitment coordinates:
`blob_public_inputs[i].z = hash3 (squeeze end_sponge_blob) C.x C.y`. -/
theorem merge_blob_challenge_spec :
    ∀ (hm : HashModel) (inp : BlockRootMergeInputs)
      (out : AggregatePublicInputs),
      merge hm inp = .ok out →
      ∃ hd, squeeze hm inp.right.end_sponge_blob = some hd ∧
        out.blob_public_inputs.map BlobPublicInput.z =
          inp.blob_commitments.map (fun c => hm.hash3 hd c.x c.y) := by
  intro hm inp out h
  obtain ⟨-, -, -, hd, hsq, rfl⟩ := merge_ok_inv h
  refine ⟨hd, hsq, ?_⟩
  simp [List.map_map, Function.comp]

theorem merge_blob_challenge_spec_witness :
    ∃ hd, squeeze natHashModel sampleInputs.right.end_sponge_blob = some hd ∧
      sampleOut.blob_public_inputs.map BlobPublicInput.z =
        sampleInputs.blob_commitments.map
          (fun c => natHashModel.hash3 hd c.x c.y) :=
  merge_blob_challenge_spec natHashModel sampleInputs sampleOut (by rfl)

/-- C5: a merge input whose leftmost unit has
`start_sponge_blob.fields_absorbed ≠ 0` fails with the distinguished named
failure ("block's first blob sponge was not empty"); when the leftmost unit
starts from an empty sponge, this particular failure is never produced,
whatever the non-leftmost unit's sponges look like. -/
theorem merge_first_sponge_spec :
    (∀ (hm : HashModel) (inp : BlockRootMergeInputs),
        inp.left.start_sponge_blob.fields_absorbed ≠ 0 →
        merge hm inp = .error .firstSpongeNotEmpty) ∧
    (∀ (hm : HashModel) (inp : BlockRootMergeInputs),
        inp.left.start_sponge_blob.fields_absorbed = 0 →
        merge hm inp ≠ .error .firstSpongeNotEmpty) := by
  constructor
  · intro hm inp h0
    rw [merge, if_pos h0]
  · intro hm inp h0 h
    rw [merge, if_neg (by simp [h0])] at h
    split at h
    next h1 => exact MergeError.noConfusion (Except.error.inj h)
    next h1 =>
      split at h
      next habs => exact MergeError.noConfusion (Except.error.inj h)
      next chained habs =>
        split at h
        next hne => exact MergeError.noConfusion (Except.error.inj h)
        next hne =>
          split at h
          next hsq => exact MergeError.noConfusion (Except.error.inj h)
          next hd hsq => exact Except.noConfusion h

theorem merge_first_sponge_spec_witness :
    merge natHashModel sampleNonEmptyFirst = .error .firstSpongeNotEmpty ∧
    merge natHashModel sampleNonEmptyRightStart ≠
      .error .firstSpongeNotEmpty :=
  ⟨merge_first_sponge_spec.1 natHashModel sampleNonEmptyFirst (by decide),
    merge_first_sponge_spec.2 natHashModel sampleNonEmptyRightStart
      (by decide)⟩

/-- C6: every sponge state reachable through `absorb` satisfies
`fields_absorbed ≤ expected_fields`; a fresh/empty sponge has
`fields_absorbed = 0`; `squeeze` is valid exactly when `fields_absorbed`
has reached `expected_fields`; and a merge whose final transcript is not
fully absorbed never produces an aggregate. -/
theorem sponge_invariants_spec :
    (∀ (hm : HashModel) (st : SpongeBlob), ReachableSponge hm st →
        st.fields_absorbed ≤ st.expected_fields) ∧
    (∀ n, (emptySponge n).fields_absorbed = 0) ∧
    (∀ (hm : HashModel) (st : SpongeBlob),
        (squeeze hm st).isSome ↔
          st.fields_absorbed = st.expected_fields) ∧
    (∀ (hm : HashModel) (inp : BlockRootMergeInputs),
        inp.right.end_sponge_blob.fields_absorbed ≠
          inp.right.end_sponge_blob.expected_fields →
        ∀ out, merge hm inp ≠ .ok out) := by
  refine ⟨?_, fun n => rfl, ?_, ?_⟩
  · intro hm st h
    induction h with
    | empty n => exact Nat.zero_le n
    | step st st' fields expected h1 h2 ih => exact (absorb_some_bounds h2).1
  · intro hm st
    by_cases hc : st.fields_absorbed = st.expected_fields
    · simp [squeeze, hc]
    · simp [squeeze, hc]
  · intro hm inp hne out h
    obtain ⟨-, -, -, hd, hsq, -⟩ := merge_ok_inv h
    unfold squeeze at hsq
    split at hsq
    next hc => exact hne hc
    next hc => exact Option.noConfusion hsq

theorem sponge_invariants_spec_witness :
    merge natHashModel sampleIncomplete ≠ .ok sampleOut :=
  sponge_invariants_spec.2.2.2 natHashModel sampleIncomplete (by decide)
    sampleOut

/-- C7: the empty/padding variant is deterministic and idempotent — invoked
twice with no state it yields identical `AggregatePublicInputs` — with a
fixed `out_hash` sentinel, an empty/zeroed sponge, and an empty
`blob_public_inputs` list, in the same output shape as a real merge. -/
theorem mergeEmpty_spec :
    ∀ hm : HashModel,
      mergeEmpty hm = mergeEmpty hm ∧
      (mergeEmpty hm).out_hash = hm.outHashSentinel ∧
      (mergeEmpty hm).end_sponge_blob = emptySponge 0 ∧
      (mergeEmpty hm).end_sponge_blob.fields_absorbed = 0 ∧
      (mergeEmpty hm).end_sponge_blob.accumulator = 0 ∧
      (mergeEmpty hm).blob_public_inputs = [] :=
  fun hm => ⟨rfl, rfl, rfl, rfl, rfl, rfl⟩

end Aztec

namespace BBProver

/-- The `BB_RESULT` enum of `bb/execute.ts`. -/
inductive BB_RESULT where
  | SUCCESS
  | FAILURE
  | ALREADY_PRESENT
deriving DecidableEq

/-- The `BBExecResult` record returned by `executeBB`. -/
structure BBExecResult where
  status : BB_RESULT
  exitCode : Int
  signal : Option String
deriving DecidableEq

/-- What the spawned `bb` child process did: either the spawn call threw
(the promise executor raised, so the promise rejected and the trailing
`catch` mapped it), or the process closed with an exit code and an optional
termination signal. -/
inductive SpawnOutcome where
  | spawnError
  | closed (exitCode : Int) (signal : Option String)
deriving DecidableEq

/-- The default `resultParser` of `executeBB`: `(code) => code === 0`. -/
def defaultResultParser (code : Int) : Bool :=
  code == 0

/-- `executeBB` from `bb/execute.ts` (lines 67-98): on `close` it resolves
with SUCCESS when `resultParser(exitCode)` holds and FAILURE otherwise,
carrying the exit code and signal; a spawn-level error is caught by the
trailing `.catch` and resolves with FAILURE, exit code -1 and no signal. -/
def executeBB (resultParser : Int → Bool) (outcome : SpawnOutcome) :
    BBExecResult :=
  match outcome with
  | .spawnError =>
    { status := .FAILURE, exitCode := -1, signal := none }
  | .closed exitCode signal =>
    if resultParser exitCode then
      { status := .SUCCESS, exitCode := exitCode, signal := signal }
    else
      { status := .FAILURE, exitCode := exitCode, signal := signal }

/-- The `BBResult` union (`BBSuccess | BBFailure`), with the
ALREADY_PRESENT outcome of the cached entry points; path and duration
bookkeeping carried by `BBSuccess` is not modelled (the claims only concern
status, reason and the retry flag). -/
inductive BBResult where
  | success
  | alreadyPresent
  | failure (reason : String) (retry : Option Bool)
deriving DecidableEq

/-- The retry flag carried by a result (`undefined` on successes and on
failures built without one). -/
def retryOf : BBResult → Option Bool
  | .failure _ r => r
  | _ => none

/-- Whether a result is a `BBFailure`. -/
def isFailureRes : BBResult → Bool
  | .failure _ _ => true
  | _ => false

/-- The JavaScript truthiness `!!signal` of a `string | undefined` value:
true exactly for a non-empty string. -/
def signalTruthy : Option String → Bool
  | none => false
  | some s => !(s == "")

/-- String rendering of `signal` inside template literals (`undefined` when
absent). -/
def signalString : Option String → String
  | none => "undefined"
  | some s => s

/-- The signal of a spawn outcome (none when the process never ran). -/
def signalOf : SpawnOutcome → Option String
  | .spawnError => none
  | .closed _ s => s

/-- `fsCache` from `bb/execute.ts` (lines 953-995) as a transformer of the
cache-file state.  `cacheContents` is the content of `dir/.cache` (none
when absent); `writeOk` says whether the final `fs.writeFile` of the cache
key succeeds (its errors are logged and swallowed).  The action runs when
forced or when the stored key differs; the cache key is then written
unconditionally, whatever the action returned.  Returns the action's result
(none when skipped) and the new cache-file content. -/
def fsCache {α : Type} (cacheContents : Option (List Nat))
    (expectedCacheKey : List Nat) (force : Bool) (writeOk : Bool)
    (action : α) : Option α × Option (List Nat) :=
  let run : Bool := force || !(cacheContents == some expectedCacheKey)
  let res : Option α := if run then some action else none
  (res, if writeOk then some expectedCacheKey else cacheContents)

/-- Environment of the inner key-generation action of
`generateKeyForNoirCircuit`: whether the bb binary is readable, whether
writing the bytecode file threw (the `catch` turns it into a failure with
the error's rendering), and the outcomes of the `write_vk` and
`vk_as_fields` invocations. -/
structure KeyGenEnv where
  binaryPresent : Bool
  writeThrows : Bool
  errMsg : String
  firstExec : SpawnOutcome
  secondExec : SpawnOutcome
deriving DecidableEq

/-- The action passed to `fsCache` by `generateKeyForNoirCircuit`
(lines 138-183): missing binary and caught exceptions fail without a retry
flag; otherwise `write_vk` runs, then on success `vk_as_fields`, and a
failing result carries `retry: !!result.signal`. -/
def keyGenAction (pathToBB : String) (env : KeyGenEnv) : BBResult :=
  if !env.binaryPresent then
    .failure ("Failed to find bb binary at " ++ pathToBB) none
  else if env.writeThrows then
    .failure env.errMsg none
  else
    let result0 := executeBB defaultResultParser env.firstExec
    let result :=
      if result0.status = .SUCCESS then
        executeBB defaultResultParser env.secondExec
      else
        result0
    if result.status = .SUCCESS then
      .success
    else
      .failure
        ("Failed to generate key. Exit code: " ++ toString result.exitCode ++
          ". Signal " ++ signalString result.signal ++ ".")
        (some (signalTruthy result.signal))

/-- `generateKeyForNoirCircuit` (lines 115-195): wraps `keyGenAction` in
`fsCache` keyed by the bytecode hash; a skipped action (cache hit) is
reported as ALREADY_PRESENT.  Returns the result together with the new
cache-file content. -/
def generateKeyForNoirCircuit (pathToBB : String) (env : KeyGenEnv)
    (bytecodeHash : List Nat) (cacheContents : Option (List Nat))
    (writeCacheOk : Bool) (force : Bool) : BBResult × Option (List Nat) :=
  let r := fsCache cacheContents bytecodeHash force writeCacheOk
    (keyGenAction pathToBB env)
  (match r.1 with
   | none => .alreadyPresent
   | some res => res, r.2)

/-- Environment of the single-invocation proving functions: directory and
binary presence, whether a write inside the `try` threw, and the spawn
outcome of the one bb invocation. -/
structure ProveEnv where
  workdirExists : Bool
  binaryPresent : Bool
  writeThrows : Bool
  errMsg : String
  exec : SpawnOutcome
deriving DecidableEq

/-- `generateProof` (lines 360-420): missing working directory, missing
binary and caught exceptions fail without a retry flag; a failing bb run
carries `retry: !!result.signal`. -/
def generateProof (pathToBB workingDirectory : String) (env : ProveEnv) :
    BBResult :=
  if !env.workdirExists then
    .failure ("Working directory " ++ workingDirectory ++ " does not exist")
      none
  else if !env.binaryPresent then
    .failure ("Failed to find bb binary at " ++ pathToBB) none
  else if env.writeThrows then
    .failure env.errMsg none
  else
    let result := executeBB defaultResultParser env.exec
    if result.status = .SUCCESS then
      .success
    else
      .failure
        ("Failed to generate proof. Exit code " ++ toString result.exitCode ++
          ". Signal " ++ signalString result.signal ++ ".")
        (some (signalTruthy result.signal))

/-- `generateTubeProof` (lines 433-493).  The input-file presence test on
line 463 never fires (the promises are not awaited, so the negated values
are always falsy), leaving directory check, binary check and the
`prove_tube` run. -/
def generateTubeProof (pathToBB workingDirectory : String) (env : ProveEnv) :
    BBResult :=
  if !env.workdirExists then
    .failure ("Working directory " ++ workingDirectory ++ " does not exist")
      none
  else if !env.binaryPresent then
    .failure ("Failed to find bb binary at " ++ pathToBB) none
  else
    let result := executeBB defaultResultParser env.exec
    if result.status = .SUCCESS then
      .success
    else
      .failure
        ("Failed to generate proof. Exit code " ++ toString result.exitCode ++
          ". Signal " ++ signalString result.signal ++ ".")
        (some (signalTruthy result.signal))

/-- `generateAvmProof` (lines 504-582): directory check, binary check, the
two input writes inside `try` (a throw is caught, no retry flag; the
unawaited presence re-checks never fire), then the `avm_prove` run. -/
def generateAvmProof (pathToBB workingDirectory : String) (env : ProveEnv) :
    BBResult :=
  if !env.workdirExists then
    .failure ("Working directory " ++ workingDirectory ++ " does not exist")
      none
  else if !env.binaryPresent then
    .failure ("Failed to find bb binary at " ++ pathToBB) none
  else if env.writeThrows then
    .failure env.errMsg none
  else
    let result := executeBB defaultResultParser env.exec
    if result.status = .SUCCESS then
      .success
    else
      .failure
        ("Failed to generate proof. Exit code " ++ toString result.exitCode ++
          ". Signal " ++ signalString result.signal ++ ".")
        (some (signalTruthy result.signal))

/-- `verifyProofInternal` (lines 669-701), the shared body of `verifyProof`
and `verifyAvmProof`: binary check, then the verify run; a failing run
carries `retry: !!result.signal`. -/
def verifyProofInternal (pathToBB : String) (env : ProveEnv) : BBResult :=
  if !env.binaryPresent then
    .failure ("Failed to find bb binary at " ++ pathToBB) none
  else
    let result := executeBB defaultResultParser env.exec
    if result.status = .SUCCESS then
      .success
    else
      .failure
        ("Failed to verify proof. Exit code " ++ toString result.exitCode ++
          ". Signal " ++ signalString result.signal ++ ".")
        (some (signalTruthy result.signal))

/-- Environment of `computeVerificationKey`: like `KeyGenEnv` plus the
working-directory check. -/
structure VKEnv where
  workdirExists : Bool
  binaryPresent : Bool
  writeThrows : Bool
  errMsg : String
  firstExec : SpawnOutcome
  secondExec : SpawnOutcome
deriving DecidableEq

/-- `computeVerificationKey` (lines 280-347): directory check, binary
check, bytecode write inside `try`; then `write_vk`, whose failure returns
reason "Failed writing VK." with NO retry flag (lines 319-321); then
`vk_as_fields`, whose failure carries `retry: !!result.signal`. -/
def computeVerificationKey (pathToBB workingDirectory : String)
    (env : VKEnv) : BBResult :=
  if !env.workdirExists then
    .failure ("Working directory " ++ workingDirectory ++ " does not exist")
      none
  else if !env.binaryPresent then
    .failure ("Failed to find bb binary at " ++ pathToBB) none
  else if env.writeThrows then
    .failure env.errMsg none
  else
    let result0 := executeBB defaultResultParser env.firstExec
    if result0.status = .FAILURE then
      .failure "Failed writing VK." none
    else
      let result := executeBB defaultResultParser env.secondExec
      if result.status = .SUCCESS then
        .success
      else
        .failure
          ("Failed to write VK. Exit code " ++ toString result.exitCode ++
            ". Signal " ++ signalString result.signal ++ ".")
          (some (signalTruthy result.signal))

/-- A key-generation environment whose bb binary is missing, so the inner
action fails. -/
def sampleKeyGenEnv : KeyGenEnv :=
  { binaryPresent := false, writeThrows := false, errMsg := ""
    firstExec := .closed 0 none, secondExec := .closed 0 none }

/-- A proving environment whose single bb run was killed by SIGTERM. -/
def proveSignalEnv : ProveEnv :=
  { workdirExists := true, binaryPresent := true, writeThrows := false
    errMsg := "", exec := .closed 1 (some "SIGTERM") }

/-- A `computeVerificationKey` environment whose first bb run (`write_vk`)
was killed by SIGKILL. -/
def cvkSignalEnv : VKEnv :=
  { workdirExists := true, binaryPresent := true, writeThrows := false
    errMsg := "", firstExec := .closed 137 (some "SIGKILL")
    secondExec := .closed 0 none }

/-- C8: in `generateKeyForNoirCircuit` the cache-key file is written by
`fsCache` after the action runs regardless of the action's outcome, so a
call whose inner key generation returns a FAILURE still records the
bytecode hash, and a subsequent call with the same bytecode and
`force = false` returns ALREADY_PRESENT without re-running the key
generation — failure is not atomic with respect to the cache state. -/
theorem keygen_cache_not_atomic :
    (∀ (α : Type) (a : α) (st : Option (List Nat)) (k : List Nat)
        (force : Bool), (fsCache st k force true a).2 = some k) ∧
    (∀ (pathToBB : String) (env : KeyGenEnv) (k : List Nat)
        (st : Option (List Nat)) (reason : String) (retry : Option Bool),
        st ≠ some k →
        keyGenAction pathToBB env = .failure reason retry →
        (generateKeyForNoirCircuit pathToBB env k st true false).1 =
            .failure reason retry ∧
          (generateKeyForNoirCircuit pathToBB env k st true false).2 =
            some k ∧
          (fsCache (some k) k false true (keyGenAction pathToBB env)).1 =
            none ∧
          (generateKeyForNoirCircuit pathToBB env k (some k) true
              false).1 = .alreadyPresent) := by
  constructor
  · intro α a st k force
    simp [fsCache]
  · intro pathToBB env k st reason retry hne hact
    have hbe : (st == some k) = false := beq_eq_false_iff_ne.mpr hne
    refine ⟨?_, ?_, ?_, ?_⟩
    · simp [generateKeyForNoirCircuit, fsCache, hbe, hact]
    · simp [generateKeyForNoirCircuit, fsCache]
    · simp [fsCache]
    · simp [generateKeyForNoirCircuit, fsCache]

theorem keygen_cache_not_atomic_witness :
    (generateKeyForNoirCircuit "bb" sampleKeyGenEnv [1, 2] none true
        false).1 = .failure "Failed to find bb binary at bb" none ∧
      (generateKeyForNoirCircuit "bb" sampleKeyGenEnv [1, 2] none true
        false).2 = some [1, 2] ∧
      (fsCache (some [1, 2]) [1, 2] false true
        (keyGenAction "bb" sampleKeyGenEnv)).1 = none ∧
      (generateKeyForNoirCircuit "bb" sampleKeyGenEnv [1, 2]
        (some [1, 2]) true false).1 = .alreadyPresent :=
  keygen_cache_not_atomic.2 "bb" sampleKeyGenEnv [1, 2] none
    "Failed to find bb binary at bb" none (by decide) (by rfl)

/-- C9: `executeBB` always resolves with a `BBExecResult`: its status is
SUCCESS exactly when `resultParser` applied to the process exit code holds
(by default, exit code 0), and a spawn-level error resolves to FAILURE with
exit code -1 and no signal.  Totality of this function embeds the promise
never rejecting or throwing. -/
theorem executeBB_total_spec :
    ∀ (resultParser : Int → Bool) (o : SpawnOutcome),
      (executeBB resultParser .spawnError =
        { status := .FAILURE, exitCode := -1, signal := none }) ∧
      (∀ c s, (executeBB resultParser (.closed c s)).status =
        (if resultParser c then .SUCCESS else .FAILURE)) ∧
      ((executeBB resultParser o).status = .SUCCESS ↔
        ∃ c s, o = .closed c s ∧ resultParser c = true) ∧
      (∀ c, defaultResultParser c = true ↔ c = 0) := by
  intro resultParser o
  refine ⟨rfl, ?_, ?_, ?_⟩
  · intro c s
    by_cases hc : resultParser c
    · simp [executeBB, hc]
    · simp [executeBB, hc]
  · cases o with
    | spawnError =>
      constructor
      · intro hs
        exact BB_RESULT.noConfusion hs
      · rintro ⟨c, s, h, -⟩
        exact SpawnOutcome.noConfusion h
    | closed c s =>
      cases hrc : resultParser c with
      | true =>
        constructor
        · intro hs
          exact ⟨c, s, rfl, hrc⟩
        · intro hs
          simp [executeBB, hrc]
      | false =>
        constructor
        · intro hs
          exact absurd hs (by simp [executeBB, hrc])
        · rintro ⟨c', s', heq, hc'⟩
          injection heq with h1 h2
          subst h1
          rw [hrc] at hc'
          exact Bool.noConfusion hc'
  · intro c
    simp [defaultResultParser]

theorem executeBB_total_spec_witness :
    (executeBB defaultResultParser (.closed 0 (some "SIGTERM"))).status =
      .SUCCESS :=
  ((executeBB_total_spec defaultResultParser
      (.closed 0 (some "SIGTERM"))).2.2.1).mpr
    ⟨0, some "SIGTERM", rfl, by decide⟩

/-- C10 counterexample: `computeVerificationKey` whose first bb invocation
(`write_vk`) ran and was killed by a signal returns a BBFailure with no
retry flag, so "the retry flag is true exactly when the process was
terminated by a signal" fails at this input. -/
theorem bb_retry_flag_counterexample :
    computeVerificationKey "bb" "wd" cvkSignalEnv =
        .failure "Failed writing VK." none ∧
      signalOf cvkSignalEnv.firstExec = some "SIGKILL" ∧
      ¬(retryOf (computeVerificationKey "bb" "wd" cvkSignalEnv) =
            some true ↔
          signalTruthy (signalOf cvkSignalEnv.firstExec) = true) := by
  refine ⟨by rfl, rfl, ?_⟩
  intro hiff
  have h2 : signalTruthy (signalOf cvkSignalEnv.firstExec) = true := by
    decide
  have h1 := hiff.mpr h2
  have h0 : retryOf (computeVerificationKey "bb" "wd" cvkSignalEnv) =
      none := by rfl
  rw [h0] at h1
  exact Option.noConfusion h1

/-- C10 (amended): for every BBFailure returned by `generateProof`,
`generateKeyForNoirCircuit`, `generateTubeProof`, `generateAvmProof` and
the verify functions after the bb process actually ran, the retry flag is
true exactly when the process was terminated by a signal (non-empty
`result.signal`); `computeVerificationKey` behaves the same for its second
bb invocation, but a failure of its first bb invocation (`write_vk`)
returns reason "Failed writing VK." with no retry flag even when that
process was signal-terminated; failures due to a missing bb binary, a
missing working directory, or a caught exception carry no retry flag. -/
theorem bb_retry_flag_spec :
    (∀ s, signalTruthy s = true ↔ ∃ str, s = some str ∧ str ≠ "") ∧
    (∀ (pathToBB wd : String) (env : ProveEnv),
        env.workdirExists = true → env.binaryPresent = true →
        env.writeThrows = false →
        (executeBB defaultResultParser env.exec).status = .FAILURE →
        retryOf (generateProof pathToBB wd env) =
          some (signalTruthy
            (executeBB defaultResultParser env.exec).signal)) ∧
    (∀ (pathToBB wd : String) (env : ProveEnv),
        env.workdirExists = true → env.binaryPresent = true →
        (executeBB defaultResultParser env.exec).status = .FAILURE →
        retryOf (generateTubeProof pathToBB wd env) =
          some (signalTruthy
            (executeBB defaultResultParser env.exec).signal)) ∧
    (∀ (pathToBB wd : String) (env : ProveEnv),
        env.workdirExists = true → env.binaryPresent = true →
        env.writeThrows = false →
        (executeBB defaultResultParser env.exec).status = .FAILURE →
        retryOf (generateAvmProof pathToBB wd env) =
          some (signalTruthy
            (executeBB defaultResultParser env.exec).signal)) ∧
    (∀ (pathToBB : String) (env : ProveEnv),
        env.binaryPresent = true →
        (executeBB defaultResultParser env.exec).status = .FAILURE →
        retryOf (verifyProofInternal pathToBB env) =
          some (signalTruthy
            (executeBB defaultResultParser env.exec).signal)) ∧
    (∀ (pathToBB : String) (env : KeyGenEnv),
        env.binaryPresent = true → env.writeThrows = false →
        (executeBB defaultResultParser env.firstExec).status = .FAILURE →
        retryOf (keyGenAction pathToBB env) =
          some (signalTruthy
            (executeBB defaultResultParser env.firstExec).signal)) ∧
    (∀ (pathToBB : String) (env : KeyGenEnv),
        env.binaryPresent = true → env.writeThrows = false →
        (executeBB defaultResultParser env.firstExec).status = .SUCCESS →
        (executeBB defaultResultParser env.secondExec).status = .FAILURE →
        retryOf (keyGenAction pathToBB env) =
          some (signalTruthy
            (executeBB defaultResultParser env.secondExec).signal)) ∧
    (∀ (pathToBB wd : String) (env : VKEnv),
        env.workdirExists = true → env.binaryPresent = true →
        env.writeThrows = false →
        (executeBB defaultResultParser env.firstExec).status = .SUCCESS →
        (executeBB defaultResultParser env.secondExec).status = .FAILURE →
        retryOf (computeVerificationKey pathToBB wd env) =
          some (signalTruthy
            (executeBB defaultResultParser env.secondExec).signal)) ∧
    (∀ (pathToBB wd : String) (env : VKEnv),
        env.workdirExists = true → env.binaryPresent = true →
        env.writeThrows = false →
        (executeBB defaultResultParser env.firstExec).status = .FAILURE →
        computeVerificationKey pathToBB wd env =
          .failure "Failed writing VK." none) ∧
    (∀ (pathToBB wd : String) (env : ProveEnv),
        (env.workdirExists = false →
          retryOf (generateProof pathToBB wd env) = none ∧
          retryOf (generateTubeProof pathToBB wd env) = none ∧
          retryOf (generateAvmProof pathToBB wd env) = none) ∧
        (env.workdirExists = true → env.binaryPresent = false →
          retryOf (generateProof pathToBB wd env) = none ∧
          retryOf (generateTubeProof pathToBB wd env) = none ∧
          retryOf (generateAvmProof pathToBB wd env) = none ∧
          retryOf (verifyProofInternal pathToBB env) = none) ∧
        (env.workdirExists = true → env.binaryPresent = true →
          env.writeThrows = true →
          retryOf (generateProof pathToBB wd env) = none ∧
          retryOf (generateAvmProof pathToBB wd env) = none)) ∧
    (∀ (pathToBB : String) (env : KeyGenEnv),
        (env.binaryPresent = false →
          retryOf (keyGenAction pathToBB env) = none) ∧
        (env.binaryPresent = true → env.writeThrows = true →
          retryOf (keyGenAction pathToBB env) = none)) ∧
    (∀ (pathToBB wd : String) (env : VKEnv),
        (env.workdirExists = false →
          retryOf (computeVerificationKey pathToBB wd env) = none) ∧
        (env.workdirExists = true → env.binaryPresent = false →
          retryOf (computeVerificationKey pathToBB wd env) = none) ∧
        (env.workdirExists = true → env.binaryPresent = true →
          env.writeThrows = true →
          retryOf (computeVerificationKey pathToBB wd env) = none)) := by
  refine ⟨?_, ?_, ?_, ?_, ?_, ?_, ?_, ?_, ?_, ?_, ?_, ?_⟩
  · intro s
    cases s with
    | none => simp [signalTruthy]
    | some str => simp [signalTruthy]
  · intro pathToBB wd env hwd hbin hwr hfail
    simp [generateProof, hwd, hbin, hwr, hfail, retryOf]
  · intro pathToBB wd env hwd hbin hfail
    simp [generateTubeProof, hwd, hbin, hfail, retryOf]
  · intro pathToBB wd env hwd hbin hwr hfail
    simp [generateAvmProof, hwd, hbin, hwr, hfail, retryOf]
  · intro pathToBB env hbin hfail
    simp [verifyProofInternal, hbin, hfail, retryOf]
  · intro pathToBB env hbin hwr hfail
    simp [keyGenAction, hbin, hwr, hfail, retryOf]
  · intro pathToBB env hbin hwr hok hfail
    simp [keyGenAction, hbin, hwr, hok, hfail, retryOf]
  · intro pathToBB wd env hwd hbin hwr hok hfail
    simp [computeVerificationKey, hwd, hbin, hwr, hok, hfail, retryOf]
  · intro pathToBB wd env hwd hbin hwr hfail
    simp [computeVerificationKey, hwd, hbin, hwr, hfail]
  · intro pathToBB wd env
    refine ⟨fun hwd => ⟨?_, ?_, ?_⟩,
      fun hwd hbin => ⟨?_, ?_, ?_, ?_⟩, fun hwd hbin hwr => ⟨?_, ?_⟩⟩
    · simp [generateProof, hwd, retryOf]
    · simp [generateTubeProof, hwd, retryOf]
    · simp [generateAvmProof, hwd, retryOf]
    · simp [generateProof, hwd, hbin, retryOf]
    · simp [generateTubeProof, hwd, hbin, retryOf]
    · simp [generateAvmProof, hwd, hbin, retryOf]
    · simp [verifyProofInternal, hbin, retryOf]
    · simp [generateProof, hwd, hbin, hwr, retryOf]
    · simp [generateAvmProof, hwd, hbin, hwr, retryOf]
  · intro pathToBB env
    refine ⟨fun hbin => ?_, fun hbin hwr => ?_⟩
    · simp [keyGenAction, hbin, retryOf]
    · simp [keyGenAction, hbin, hwr, retryOf]
  · intro pathToBB wd env
    refine ⟨fun hwd => ?_, fun hwd hbin => ?_, fun hwd hbin hwr => ?_⟩
    · simp [computeVerificationKey, hwd, retryOf]
    · simp [computeVerificationKey, hwd, hbin, retryOf]
    · simp [computeVerificationKey, hwd, hbin, hwr, retryOf]

theorem bb_retry_flag_spec_witness :
    retryOf (generateProof "bb" "wd" proveSignalEnv) = some true ∧
      computeVerificationKey "bb" "wd" cvkSignalEnv =
        .failure "Failed writing VK." none := by
  constructor
  · have h := bb_retry_flag_spec.2.1 "bb" "wd" proveSignalEnv rfl rfl rfl
      (by decide)
    exact h.trans (by decide)
  · exact bb_retry_flag_spec.2.2.2.2.2.2.2.2.1 "bb" "wd" cvkSignalEnv rfl
      rfl rfl (by decide)

end BBProver
